import Mathlib

/-!
Verification of the sidebar and scroll-reveal components
(`src/components/ui/sidebar.tsx` and the `ScrollReveal` wrapper).

The components are embedded shallowly: UI state becomes explicit record
state, event handlers become state-transition functions, and the
`setTimeout`-based collapse delay of the desktop sidebar is modelled by an
explicit list of pending timer deadlines together with a function firing
every due timer.  Machine-irrelevant rendering (class names, motion
configs) is omitted; every modelled transition mirrors one handler or
effect of the source line by line.
-/

namespace CodeViveks

/-- The sidebar context value: `{ open, setOpen, animate }`.  `setOpen`
becomes explicit state passing in this embedding, so only the two data
fields remain. -/
structure SidebarContextProps where
  «open» : Bool
  animate : Bool
deriving DecidableEq, Repr

/-- `useSidebar`: reads the ambient context; throws
`"useSidebar must be used inside SidebarProvider"` when the context is
absent (`undefined`), otherwise returns the provided context value. -/
def useSidebar (ctx : Option SidebarContextProps) :
    Except String SidebarContextProps :=
  match ctx with
  | none => Except.error "useSidebar must be used inside SidebarProvider"
  | some c => Except.ok c

/-- The optional props accepted by `SidebarProvider`: an optional
controlled `open` value and the `animate` flag (defaulted in the
component signature).  The optional `setOpen` prop selects which setter
is used and carries no data, so it is not modelled. -/
structure SidebarProviderProps where
  openProp : Option Bool
  animateProp : Option Bool
deriving DecidableEq, Repr

/-- `useState(false)` in `SidebarProvider`: the initial internal open
state. -/
def initialOpenState : Bool := false

/-- The context value built by `SidebarProvider`:
`open = openProp ?? openState` and `animate` defaulted to `true` by the
parameter default `animate = true`. -/
def providerContext (p : SidebarProviderProps) (openState : Bool) :
    SidebarContextProps :=
  { «open» := p.openProp.getD openState
    animate := p.animateProp.getD true }

/-! ### Desktop sidebar -/

/-- The fixed collapse delay passed to `setTimeout` on mouse-leave. -/
def collapseDelayMs : Nat := 120

/-- The constant width of the desktop sidebar:
`width: animate ? (open ? 260 : 80) : 260`. -/
def desktopWidth (animate «open» : Bool) : Nat :=
  if animate then (if «open» then 260 else 80) else 260

/-- Discrete events delivered to the `DesktopSidebar` view. -/
inductive DesktopEvent
  | mouseEnter
  | mouseLeave
  | unmount
deriving DecidableEq, Repr

/-- The state of a mounted `DesktopSidebar` together with its shared
`open` flag: `timers` holds the absolute deadlines of the `setTimeout`
callbacks that are scheduled and have not yet run (the source stores only
the latest handle in `hoverTimeout` and never calls `clearTimeout`, so
every scheduled callback eventually runs); `staleUpdates` counts the
`setOpen` calls made after the view was unmounted. -/
structure DesktopState where
  «open» : Bool
  timers : List Nat
  mounted : Bool
  staleUpdates : Nat
deriving DecidableEq, Repr

/-- A freshly mounted `DesktopSidebar` reading `open` from context. -/
def initialDesktop («open» : Bool) : DesktopState :=
  { «open» := «open», timers := [], mounted := true, staleUpdates := 0 }

/-- The body of the scheduled timeout:
`() => animate && setOpen(false)`.  The callback runs whether or not the
view is still mounted, since nothing ever clears the timer; a run after
unmount is recorded as a stale update. -/
def collapseCallback (animate : Bool) (s : DesktopState) : DesktopState :=
  if animate then
    { s with «open» := false
             staleUpdates :=
               if s.mounted then s.staleUpdates else s.staleUpdates + 1 }
  else s

/-- Fire every scheduled timeout whose deadline has been reached by time
`now`, keeping the rest pending. -/
def fireDue (animate : Bool) (now : Nat) (s : DesktopState) : DesktopState :=
  let due := s.timers.filter (fun d => d ≤ now)
  let rest := s.timers.filter (fun d => now < d)
  due.foldl (fun st _ => collapseCallback animate st) { s with timers := rest }

/-- The handlers of `DesktopSidebar`:
`onMouseEnter={() => animate && setOpen(true)}` (note: no `clearTimeout`),
`onMouseLeave={() => (hoverTimeout.current = setTimeout(..., 120))}`, and
unmount, which detaches the view; the source registers no cleanup, so the
pending timers survive the unmount. -/
def handleDesktopEvent (animate : Bool) (now : Nat) (e : DesktopEvent)
    (s : DesktopState) : DesktopState :=
  match e with
  | DesktopEvent.mouseEnter =>
      if s.mounted then (if animate then { s with «open» := true } else s) else s
  | DesktopEvent.mouseLeave =>
      if s.mounted then { s with timers := s.timers ++ [now + collapseDelayMs] }
      else s
  | DesktopEvent.unmount => { s with mounted := false }

/-- One step: at the event's time, first run every due timeout, then run
the event's handler. -/
def desktopStep (animate : Bool) (s : DesktopState) (ev : Nat × DesktopEvent) :
    DesktopState :=
  handleDesktopEvent animate ev.1 ev.2 (fireDue animate ev.1 s)

/-- Run a time-ordered sequence of events. -/
def runDesktop (animate : Bool) (events : List (Nat × DesktopEvent))
    (s : DesktopState) : DesktopState :=
  events.foldl (desktopStep animate) s

/-- Let time run out: every still-pending timeout fires. -/
def elapseAll (animate : Bool) (s : DesktopState) : DesktopState :=
  s.timers.foldl (fun st _ => collapseCallback animate st) { s with timers := [] }

/-! ### Mobile sidebar -/

/-- `useState(false)` in `MobileSidebar`: the initial drawer visibility. -/
def initialMenuOpen : Bool := false

/-- The local state of `MobileSidebar`. -/
structure MobileState where
  menuOpen : Bool
deriving DecidableEq, Repr

/-- Mounting `MobileSidebar`: the local `menuOpen` state starts at
`useState(false)`, and the mount effect
`React.useEffect(() => { setOpen(false); }, [setOpen])` writes `false`
into the shared `open` flag, whatever value it held. -/
def mobileMount (shared : SidebarContextProps) :
    MobileState × SidebarContextProps :=
  ({ menuOpen := initialMenuOpen }, { shared with «open» := false })

/-- The menu button: `onClick={() => setMenuOpen(!menuOpen)}`. -/
def toggleMenuClick (s : MobileState) : MobileState :=
  { s with menuOpen := !s.menuOpen }

/-! ### Scroll reveal -/

/-- The two variants of the reveal wrapper: `hidden` and `visible`. -/
inductive AnimState
  | hidden
  | visible
deriving DecidableEq, Repr

/-- The state of a mounted `ScrollReveal`: the `inView` flag from
`useInView({ triggerOnce: true, ... })` and the animation-controls
target. -/
structure RevealState where
  inView : Bool
  anim : AnimState
deriving DecidableEq, Repr

/-- A fresh mount: not yet in view, `initial="hidden"`. -/
def initialReveal : RevealState := { inView := false, anim := AnimState.hidden }

/-- An intersection-observer callback reporting visibility `v`.  With
`triggerOnce: true` the hook latches: once `inView` is `true` it stays
`true`.  The effect `if (inView) controls.start("visible")` then runs on
the new value; no branch ever starts `"hidden"`. -/
def intersectionChange (s : RevealState) (v : Bool) : RevealState :=
  let inView' := s.inView || v
  { inView := inView'
    anim := if inView' then AnimState.visible else s.anim }

/-- Run a sequence of intersection callbacks. -/
def runReveal (events : List Bool) (s : RevealState) : RevealState :=
  events.foldl intersectionChange s

/-! ### Helper lemmas -/

theorem collapseCallback_animateFalse (s : DesktopState) :
    collapseCallback false s = s := rfl

theorem foldl_collapseCallback_animateFalse (l : List Nat) (s : DesktopState) :
    l.foldl (fun st _ => collapseCallback false st) s = s := by
  induction l generalizing s with
  | nil => rfl
  | cons a l ih => exact ih s

theorem fireDue_animateFalse_open (now : Nat) (s : DesktopState) :
    (fireDue false now s).«open» = s.«open» := by
  simp [fireDue, foldl_collapseCallback_animateFalse]

theorem handleDesktopEvent_animateFalse_open (now : Nat) (e : DesktopEvent)
    (s : DesktopState) :
    (handleDesktopEvent false now e s).«open» = s.«open» := by
  cases e with
  | mouseEnter => simp only [handleDesktopEvent]; split <;> rfl
  | mouseLeave => simp only [handleDesktopEvent]; split <;> rfl
  | unmount => rfl

theorem desktopStep_animateFalse_open (s : DesktopState) (ev : Nat × DesktopEvent) :
    (desktopStep false s ev).«open» = s.«open» := by
  simp [desktopStep, handleDesktopEvent_animateFalse_open, fireDue_animateFalse_open]

theorem runDesktop_animateFalse_open (events : List (Nat × DesktopEvent))
    (s : DesktopState) :
    (runDesktop false events s).«open» = s.«open» := by
  induction events generalizing s with
  | nil => rfl
  | cons ev evs ih =>
      simpa [runDesktop, List.foldl, desktopStep_animateFalse_open]
        using (ih (desktopStep false s ev)).trans
          (desktopStep_animateFalse_open s ev)

theorem intersectionChange_latch (s : RevealState) (v : Bool)
    (h : s.inView = true) : (intersectionChange s v).inView = true := by
  simp [intersectionChange, h]

theorem intersectionChange_visible (s : RevealState) (v : Bool)
    (h : s.anim = AnimState.visible) :
    (intersectionChange s v).anim = AnimState.visible := by
  simp only [intersectionChange]
  split <;> simp [h]

/-! ### Claims -/

/-- C2: evaluating `useSidebar` outside a `SidebarProvider` subtree (no
ambient context) raises the descriptive error
`"useSidebar must be used inside SidebarProvider"` and never returns a
default context value; inside a provider subtree it returns exactly the
provided `{open, setOpen, animate}` context. -/
theorem useSidebar_error_outside_provider :
    useSidebar none =
      Except.error "useSidebar must be used inside SidebarProvider"
    ∧ (∀ c : SidebarContextProps, useSidebar (some c) = Except.ok c) :=
  ⟨rfl, fun _ => rfl⟩

/-- C4: with `animate = false` the desktop sidebar's rendered width is
the constant 260 for both values of `open`; with `animate = true` it is
260 when open and 80 when closed, so the width depends on `open` only
when `animate = true`. -/
theorem desktopWidth_constant_without_animate :
    (∀ o : Bool, desktopWidth false o = 260)
    ∧ desktopWidth true true = 260
    ∧ desktopWidth true false = 80 := by
  refine ⟨fun o => ?_, rfl, rfl⟩
  cases o <;> rfl

/-- C5: on every mount of `MobileSidebar`, the local drawer-visibility
state `menuOpen` is initialised by `useState(false)` to `false`,
whatever context (including a controlled `open`) the provider supplies. -/
theorem mobileMount_menuOpen_false :
    ∀ shared : SidebarContextProps, (mobileMount shared).1.menuOpen = false :=
  fun _ => rfl

/-- C6: the reveal wrapper's animation state is one-way: once the
latched `inView` flag is `true` it stays `true` under every further
sequence of intersection callbacks, and once the animation state is
`visible` no sequence of callbacks ever returns it to `hidden`. -/
theorem runReveal_one_way :
    ∀ (events : List Bool) (s : RevealState),
      (s.inView = true → (runReveal events s).inView = true)
      ∧ (s.anim = AnimState.visible →
          (runReveal events s).anim = AnimState.visible) := by
  intro events
  induction events with
  | nil => exact fun s => ⟨fun h => h, fun h => h⟩
  | cons v evs ih =>
      intro s
      refine ⟨fun h => ?_, fun h => ?_⟩
      · exact (ih (intersectionChange s v)).1 (intersectionChange_latch s v h)
      · exact (ih (intersectionChange s v)).2 (intersectionChange_visible s v h)

/-- Witness for C6 at a concrete already-visible state and a concrete
callback sequence. -/
theorem runReveal_one_way_witness :
    (runReveal [false, true, false]
        { inView := true, anim := AnimState.visible }).inView = true
    ∧ (runReveal [false, true, false]
        { inView := true, anim := AnimState.visible }).anim
        = AnimState.visible :=
  ⟨(runReveal_one_way [false, true, false]
      { inView := true, anim := AnimState.visible }).1 rfl,
   (runReveal_one_way [false, true, false]
      { inView := true, anim := AnimState.visible }).2 rfl⟩

/-- C7 counterexample: with no `animate` prop supplied, the provider's
context has `animate = true` (the parameter default is `animate = true`),
refuting "every flag defaults to false" for the `animate` flag. -/
theorem providerContext_animate_default_not_false :
    ¬ ((providerContext { openProp := none, animateProp := none }
          initialOpenState).animate = false) := by
  decide

/-- C7 amended: `open`, `menuOpen` and `inView` are booleans defaulting
to `false` when not externally supplied, while `animate` is a boolean
defaulting to `true`. -/
theorem state_flag_defaults :
    initialOpenState = false
    ∧ (providerContext { openProp := none, animateProp := none }
        initialOpenState).«open» = false
    ∧ (providerContext { openProp := none, animateProp := none }
        initialOpenState).animate = true
    ∧ initialMenuOpen = false
    ∧ initialReveal.inView = false := by
  refine ⟨rfl, rfl, rfl, rfl, rfl⟩

/-- C8: each click of the mobile menu button flips `menuOpen` exactly
once (clicking in state `b` yields `!b`, and two consecutive clicks
restore the original state), and a fresh mount after an unmount carries
no residual state: its `menuOpen` starts at `false` again. -/
theorem toggleMenuClick_involution :
    ∀ s : MobileState,
      (toggleMenuClick s).menuOpen = !s.menuOpen
      ∧ toggleMenuClick (toggleMenuClick s) = s
      ∧ (∀ shared : SidebarContextProps,
          (mobileMount shared).1.menuOpen = false) := by
  intro s
  refine ⟨rfl, ?_, fun _ => rfl⟩
  cases s with
  | mk m => simp [toggleMenuClick]

/-- C9: with `animate = false`, neither the mouse-enter handler nor any
scheduled collapse callback ever changes the shared `open` flag (both are
guarded by `animate &&`), so any event sequence followed by full timer
expiry leaves `open` exactly as it started. -/
theorem runDesktop_animateFalse_frame :
    ∀ (events : List (Nat × DesktopEvent)) (s : DesktopState),
      (elapseAll false (runDesktop false events s)).«open» = s.«open» := by
  intro events s
  have h1 : (elapseAll false (runDesktop false events s)).«open»
      = (runDesktop false events s).«open» := by
    simp [elapseAll, foldl_collapseCallback_animateFalse]
  exact h1.trans (runDesktop_animateFalse_open events s)

/-- C10: the mount effect of `MobileSidebar`
(`useEffect(() => { setOpen(false); }, [setOpen])`) unconditionally
resets the shared `open` flag to `false`, even when the provider was
given a controlled pair with `open` initially `true`. -/
theorem mobileMount_resets_shared_open :
    ∀ shared : SidebarContextProps,
      (mobileMount shared).2.«open» = false
      ∧ (mobileMount { «open» := true, animate := shared.animate }).2.«open»
          = false :=
  fun _ => ⟨rfl, rfl⟩

/-- C1 (code divergence): with `animate = true`, after mouse-enter at
t=0, mouse-leave at t=100 (scheduling a collapse for t=220) and a
re-enter at t=150 — strictly before the 120ms delay elapses — the source
never clears the scheduled timeout (`hoverTimeout` is assigned but
`clearTimeout` is never called), so once time passes t=220 the collapse
fires and the final state is `open = false`, not the `open = true` the
claim requires. -/
theorem desktop_reenter_does_not_cancel_collapse :
    (elapseAll true (runDesktop true
        [(0, DesktopEvent.mouseEnter), (100, DesktopEvent.mouseLeave),
         (150, DesktopEvent.mouseEnter)]
        (initialDesktop false))).«open» = false
    ∧ (runDesktop true
        [(0, DesktopEvent.mouseEnter), (100, DesktopEvent.mouseLeave),
         (150, DesktopEvent.mouseEnter)]
        (initialDesktop false)).timers = [100 + collapseDelayMs] := by
  decide

/-- C3 (code divergence): with `animate = true`, after mouse-enter at
t=0, mouse-leave at t=100 and unmount at t=110, the timer scheduled for
t=220 is never cleared (the source registers no unmount cleanup), so its
callback still runs after the view is removed and performs one stale
`setOpen(false)` on the unmounted view. -/
theorem desktop_unmount_leaves_pending_timer :
    (elapseAll true (runDesktop true
        [(0, DesktopEvent.mouseEnter), (100, DesktopEvent.mouseLeave),
         (110, DesktopEvent.unmount)]
        (initialDesktop false))).staleUpdates = 1 := by
  decide

end CodeViveks
